import Mathlib

/-
Verification of the MinerU-runpod orchestration layer.

The development shallowly embeds the two source files:
  src/app.py            (FastAPI HTTP service: pipeline singleton, bounded
                         upload ingestion, markdown extraction fallbacks,
                         the /parse/file endpoint)
  src/runpod/handler.py (serverless batch handler: input validation, URL
                         download, temp-directory lifecycle, result keys)

Pure functions become Lean functions; stateful or effectful code is modelled
by explicit state passing and an effect trace; external collaborators
(the PaddleOCR pipeline, the network, the MinerU engine, the filesystem
after engine invocation) are oracle parameters supplied to the embedded code.
-/

/-- A small dynamic value type standing for the Python values that flow
through the untyped parts of the code (job-input fields, markdown dict
entries).  Only the shapes the code actually inspects are represented. -/
inductive PyVal
  | vstr (s : String)
  | vint (n : Int)
  | vnone
  deriving Repr, DecidableEq

/-- Python truthiness for the represented values: nonempty strings and
nonzero integers are truthy, None is falsy. -/
def PyVal.truthy : PyVal → Bool
  | .vstr s => s ≠ ""
  | .vint n => n ≠ 0
  | .vnone => false

/-- Whether a value is a Python str. -/
def PyVal.isStr : PyVal → Bool
  | .vstr _ => true
  | _ => false

/-- The underlying string of a str value (and a harmless default otherwise;
only ever used under an isStr guard). -/
def PyVal.asStr : PyVal → String
  | .vstr s => s
  | _ => ""

/-- Python str() rendering, as used by f-strings in the source. -/
def pyStr : PyVal → String
  | .vstr s => s
  | .vint n => toString n
  | .vnone => "None"

/-- Python dict .get(k) on an insertion-ordered association list: the value
at the key, or None when the key is absent. -/
def dictGet (kvs : List (String × PyVal)) (k : String) : PyVal :=
  match kvs.find? (fun p => p.1 == k) with
  | some p => p.2
  | none => .vnone

/-- Python dict .get(k, d): the value at the key when the key is present
(even if that value is None), else the default. -/
def dictGetD (kvs : List (String × PyVal)) (k : String) (d : PyVal) : PyVal :=
  match kvs.find? (fun p => p.1 == k) with
  | some p => p.2
  | none => d

/-- Python sep.join(parts): the fold the str.join builtin performs. -/
def pyJoin (sep : String) : List String → String
  | [] => ""
  | a :: rest => rest.foldl (fun acc x => acc ++ sep ++ x) a

/-- A single-quote character, used to render Python list reprs inside
error messages. -/
def pyQuote : String := String.singleton (Char.ofNat 39)

/-- Python str() of a list of strings, as interpolated into the
validation error messages. -/
def pyListRepr (l : List String) : String :=
  "[" ++ pyJoin ", " (l.map (fun s => pyQuote ++ s ++ pyQuote)) ++ "]"

/-- Python dict item assignment d[k] = v on an insertion-ordered
association list: replace in place if present, else append. -/
def setK : List (String × PyVal) → String → PyVal → List (String × PyVal)
  | [], k, v => [(k, v)]
  | (k0, v0) :: rest, k, v =>
      if k0 = k then (k0, v) :: rest else (k0, v0) :: setK rest k v

/-- Whether a dict contains a key. -/
def containsKey : List (String × PyVal) → String → Bool
  | [], _ => false
  | (k0, _) :: rest, k => if k0 = k then true else containsKey rest k

namespace App

/-! ### src/app.py — pipeline singleton (get_pipeline, lines 50-73) -/

/-- The module-global pipeline slot together with a construction counter
(the counter is the observable the spec proposes for tests; it also serves
as the identity of the constructed handle). -/
structure PipelineState where
  pipeline : Option Nat
  constructions : Nat
  deriving Repr, DecidableEq

/-- The state before any call: the global starts as None. -/
def initState : PipelineState := ⟨none, 0⟩

/-- get_pipeline: if the global slot is None, construct a handle and store
it, else return the stored handle.  The Python function contains no await
point, so under the single-threaded asyncio event loop that runs the
endpoint coroutines one whole call executes atomically; a schedule of N
concurrent first-time callers is therefore some sequence of N atomic
calls against the shared state. -/
def get_pipeline : PipelineState → Nat × PipelineState
  | ⟨none, k⟩ => (k, ⟨some k, k + 1⟩)
  | ⟨some h, k⟩ => (h, ⟨some h, k⟩)

/-- Run n callers of get_pipeline in sequence, collecting the handle each
caller observes. -/
def runCallers : Nat → PipelineState → List Nat × PipelineState
  | 0, s => ([], s)
  | n + 1, s =>
      let p := get_pipeline s
      let q := runCallers n p.2
      (p.1 :: q.1, q.2)

/-! ### src/app.py — bounded upload ingestion (_write_upload_file, lines 140-158) -/

/-- The fixed chunk size the upload loop reads with (1 MiB, line 144). -/
def CHUNK_SIZE : Nat := 1024 * 1024

/-- The sequence of chunk lengths `await upload_file.read(chunk_size)`
yields for a stream of n bytes: full 1 MiB chunks, then the remainder,
then the empty read that ends the loop. -/
def chunkSizes (n : Nat) : List Nat :=
  if n = 0 then []
  else if n ≤ CHUNK_SIZE then [n]
  else CHUNK_SIZE :: chunkSizes (n - CHUNK_SIZE)
termination_by n
decreasing_by simp [CHUNK_SIZE] at *; omega

/-- Outcome of _write_upload_file: either the loop completes returning
total_written, or it raises HTTPException with a status code.  `read` is
the number of stream bytes consumed (the running total at the moment of
return or raise) and `written` the number of bytes persisted to the
destination file. -/
inductive WriteResult
  | ok (read : Nat) (written : Nat)
  | httpErr (status : Nat) (read : Nat) (written : Nat)
  deriving Repr, DecidableEq

/-- Whether the outcome is the 413 PayloadTooLarge raise. -/
def WriteResult.is413 : WriteResult → Bool
  | .httpErr 413 _ _ => true
  | _ => false

/-- Bytes persisted to the destination file. -/
def WriteResult.writtenBytes : WriteResult → Nat
  | .ok _ w => w
  | .httpErr _ _ w => w

/-- Bytes consumed from the stream. -/
def WriteResult.readBytes : WriteResult → Nat
  | .ok r _ => r
  | .httpErr _ r _ => r

/-- The upload loop body (lines 147-157): for each chunk, add its length
to the running total, raise 413 if the total exceeds the bound, otherwise
write the chunk and continue.  The check precedes the write, so the
offending chunk is never persisted. -/
def writeChunks (maxB : Nat) : List Nat → Nat → Nat → WriteResult
  | [], total, written => .ok total written
  | c :: rest, total, written =>
      if total + c > maxB then .httpErr 413 (total + c) written
      else writeChunks maxB rest (total + c) (written + c)

/-- _write_upload_file on a stream of streamSize bytes with bound maxB. -/
def write_upload_file (streamSize maxB : Nat) : WriteResult :=
  writeChunks maxB (chunkSizes streamSize) 0 0

/-! ### src/app.py — result normalization
    (_extract_markdown_from_result_sync, lines 76-117) -/

/-- The res.markdown value of one page of a raw result: either a plain
string, or a dict of fields, or something else entirely (the code inspects
exactly these shapes with isinstance). -/
inductive MdEntry
  | mstr (s : String)
  | mdict (kvs : List (String × PyVal))
  | mnone
  deriving Repr, DecidableEq

/-- Python truthiness of a markdown entry: nonempty string, nonempty dict. -/
def MdEntry.truthy : MdEntry → Bool
  | .mstr s => s ≠ ""
  | .mdict kvs => kvs ≠ []
  | .mnone => false

/-- The probe md_info.get of the markdown_texts field, else of the
markdown_text field, else the empty string: Python `or` keeps the first
truthy operand (lines 105-109). -/
def probeText (kvs : List (String × PyVal)) : PyVal :=
  let a := dictGet kvs "markdown_texts"
  if a.truthy then a
  else
    let b := dictGet kvs "markdown_text"
    if b.truthy then b else .vstr ""

/-- The text_parts buffer the secondary merge accumulates (lines 102-113):
for a dict entry, the probed field when truthy; for a str entry, the string
itself unconditionally; anything else contributes nothing. -/
def textParts : List MdEntry → List PyVal
  | [] => []
  | .mdict kvs :: rest =>
      (let t := probeText kvs; if t.truthy then [t] else []) ++ textParts rest
  | .mstr s :: rest => .vstr s :: textParts rest
  | .mnone :: rest => textParts rest

/-- `"\n\n".join(filter(None, text_parts))` (line 114): filter drops falsy
elements; join then raises TypeError unless every remaining element is a
str.  The error value models that raise (caught at line 115). -/
def joinParts (ps : List PyVal) : Except Unit String :=
  let kept := ps.filter PyVal.truthy
  if kept.all PyVal.isStr then .ok (pyJoin "\n\n" (kept.map PyVal.asStr))
  else .error ()

/-- The whole secondary (manual) merge applied to the buffered markdown
list. -/
def manualMerge (l : List MdEntry) : Except Unit String :=
  joinParts (textParts l)

/-- _extract_markdown_from_result_sync.  `concat` is the external
pipeline.concatenate_markdown_pages method (an oracle that may raise);
`pages` is the sequence of per-page markdown values the iteration yields,
and `iterFails` says whether the lazy result sequence raises mid-iteration
(in which case the code returns ("", 0) at line 89). -/
def extract_markdown (concat : List MdEntry → Except String String)
    (pages : List MdEntry) (iterFails : Bool) : String × Nat :=
  if iterFails then ("", 0)
  else
    let markdownList := pages.filter MdEntry.truthy
    if markdownList.isEmpty then ("", 0)
    else
      match concat markdownList with
      | .ok s => (s, pages.length)
      | .error _ =>
          match manualMerge markdownList with
          | .ok s => (s, pages.length)
          | .error _ => ("", 0)

/-! ### src/app.py — the /parse/file endpoint (parse_file, lines 223-289) -/

/-- os.path.splitext(filename)[1].lower() (line 244): the extension starts
at the last dot of the final path component, unless every character of that
component before the dot is itself a dot. -/
def splitextExtLower (s : String) : String :=
  let cs := s.data
  let sepIdx : Int :=
    match (cs.reverse.findIdx? (fun c => c = '/')) with
    | some i => (cs.length : Int) - 1 - i
    | none => -1
  let dotIdx : Int :=
    match (cs.reverse.findIdx? (fun c => c = '.')) with
    | some i => (cs.length : Int) - 1 - i
    | none => -1
  if sepIdx < dotIdx then
    let base := (cs.drop (sepIdx + 1).toNat).take (dotIdx - sepIdx - 1).toNat
    if base.any (fun c => c ≠ '.') then
      String.mk ((cs.drop dotIdx.toNat).map Char.toLower)
    else ""
  else ""

/-- The allow-list of upload extensions (line 240), in literal order. -/
def allowed_extensions : List String := [".pdf", ".jpg", ".jpeg", ".png", ".bmp"]

/-- Oracle for the external calls parse_file makes: the pipeline predict
call (which either raises or yields a raw result: its page markdown values
plus whether iterating it fails), and the concatenate_markdown_pages
method. -/
structure AppWorld where
  predict : Except String (List MdEntry × Bool)
  concat : List MdEntry → Except String String

/-- The observable side effects of one /parse/file request, in order. -/
inductive AppEff
  | tempdir
  | fileWrite
  | pipelineInit
  | predictCall
  deriving Repr, DecidableEq

/-- Response of the endpoint: success payload, a raised HTTPException
(status code and detail), or the 500 JSONResponse from the generic
exception handler. -/
inductive ParseResp
  | ok (markdown : String) (pages : Nat) (filename : String) (fileSize : Nat)
  | httpErr (status : Nat) (detail : String)
  | jsonErr (status : Nat) (message : String)
  deriving Repr, DecidableEq

/-- parse_file: filename checks, extension allow-list, temporary directory,
bounded write, empty-file check, pipeline invocation, markdown extraction.
maxMB is the MAX_FILE_SIZE_MB configuration (bytes bound is maxMB MiB,
lines 46-47); streamSize the uploaded stream size in bytes. -/
def parse_file (filename : String) (streamSize : Nat) (maxMB : Nat)
    (w : AppWorld) : ParseResp × List AppEff :=
  if filename = "" then
    (.httpErr 400 "Filename cannot be empty", [])
  else
    let ext := splitextExtLower filename
    if ¬ allowed_extensions.contains ext then
      (.httpErr 400
        ("Unsupported file format. Supported: " ++ pyJoin ", " allowed_extensions), [])
    else
      let maxB := maxMB * 1024 * 1024
      match write_upload_file streamSize maxB with
      | .httpErr st _ _ =>
          (.httpErr st ("File too large, max size is " ++ toString maxMB ++ "MB"),
           [.tempdir, .fileWrite])
      | .ok total _ =>
          if total = 0 then
            (.httpErr 400 "File is empty", [.tempdir, .fileWrite])
          else
            match w.predict with
            | .error e =>
                (.jsonErr 500 e, [.tempdir, .fileWrite, .pipelineInit, .predictCall])
            | .ok (pages, iterFails) =>
                let r := extract_markdown w.concat pages iterFails
                (.ok r.1 r.2 filename total,
                 [.tempdir, .fileWrite, .pipelineInit, .predictCall])

end App

namespace RP

/-! ### src/runpod/handler.py — helpers -/

/-- A job input mapping (job.get of the input key): an insertion-ordered
dict of loosely typed values. -/
abbrev JobInput := List (String × PyVal)

/-- A job result mapping. -/
abbrev PyDict := List (String × PyVal)

/-- get_file_extension (lines 63-65): Path(filename).suffix.lower()
followed by stripping the leading dot.  pathlib takes the last path
component (ignoring trailing slashes); its suffix is the part after the
last dot when that dot is neither the first nor the last character of the
component. -/
def get_file_extension (s : String) : String :=
  let trimmed := (s.data.reverse.dropWhile (fun c => c = '/')).reverse
  let name := (trimmed.reverse.takeWhile (fun c => c ≠ '/')).reverse
  match (name.reverse.findIdx? (fun c => c = '.')) with
  | some ri =>
      let i := name.length - 1 - ri
      if 0 < i ∧ i < name.length - 1 then
        String.mk ((name.drop (i + 1)).map Char.toLower)
      else ""
  | none => ""

/-- urllib.request.urlparse(url).path, for the scheme://host/path URLs
the handler downloads: drop the fragment and query, and when a scheme
separator is present, the path starts at the first slash after the host
(empty if there is none); without a scheme separator the whole string is
the path. -/
def afterSchemeSep : List Char → Option (List Char)
  | ':' :: '/' :: '/' :: rest => some rest
  | _ :: rest => afterSchemeSep rest
  | [] => none

/-- The path component of a URL (see afterSchemeSep). -/
def urlPath (s : String) : String :=
  let cs := (s.data.takeWhile (fun c => c ≠ '#')).takeWhile (fun c => c ≠ '?')
  match afterSchemeSep cs with
  | some rest => String.mk (rest.dropWhile (fun c => c ≠ '/'))
  | none => String.mk cs

/-- SUPPORTED_EXTENSIONS (line 60) is pdf_suffixes + image_suffixes
imported from the external mineru package.  Modelled from the spec: the
spec (section 4.2) allows pdf plus common raster image formats for the
batch path, and the handler docstring (lines 7-9) lists exactly these
image types. -/
def SUPPORTED_EXTENSIONS : List String :=
  ["pdf", "png", "jpeg", "jp2", "webp", "gif", "bmp", "jpg"]

/-- The mineru engine version string (external import, line 57); its value
is irrelevant to every claim, only the presence of the key matters. -/
def mineru_version : String := "2.x"

/-! ### validate_input (lines 68-98) -/

/-- The enumerated valid backends (lines 75-81). -/
def valid_backends : List String :=
  ["pipeline", "vlm-auto-engine", "vlm-http-client", "hybrid-auto-engine",
   "hybrid-http-client"]

/-- The enumerated valid methods (line 87). -/
def valid_methods : List String := ["auto", "txt", "ocr"]

/-- The enumerated valid return formats (line 93). -/
def valid_formats : List String := ["markdown", "json", "content_list"]

/-- Python membership of a dynamic value in a list of string literals:
only an equal string is a member. -/
def pyMemStr (v : PyVal) (opts : List String) : Bool :=
  match v with
  | .vstr s => opts.contains s
  | _ => false

/-- validate_input: returns (is_valid, error message). -/
def validate_input (j : JobInput) : Bool × String :=
  if ¬ (dictGet j "file_base64").truthy ∧ ¬ (dictGet j "file_url").truthy then
    (false, "Missing required parameter: file_base64 or file_url")
  else
    let backend := dictGetD j "backend" (.vstr "hybrid-auto-engine")
    if ¬ pyMemStr backend valid_backends then
      (false, "Invalid backend: " ++ pyStr backend ++ ". Valid options: "
        ++ pyListRepr valid_backends)
    else
      let method := dictGetD j "method" (.vstr "auto")
      if ¬ pyMemStr method valid_methods then
        (false, "Invalid method: " ++ pyStr method ++ ". Valid options: "
          ++ pyListRepr valid_methods)
      else
        let return_format := dictGetD j "return_format" (.vstr "markdown")
        if ¬ pyMemStr return_format valid_formats then
          (false, "Invalid return_format: " ++ pyStr return_format
            ++ ". Valid options: " ++ pyListRepr valid_formats)
        else (true, "")

/-! ### download_file (lines 101-117) -/

/-- Outcome of download_file: shutil.copyfileobj streams the entire
response body to the destination with no size accounting whatsoever, so a
successful fetch persists every byte of the response; a URLError becomes
a RuntimeError wrapping the message. -/
inductive DlResult
  | ok (bytesWritten : Nat)
  | fetchError (msg : String)
  deriving Repr, DecidableEq

/-- download_file, with the network as an oracle: either the response body
size (copied whole to disk) or a URLError message. -/
def download_file (network : Except String Nat) : DlResult :=
  match network with
  | .ok n => .ok n
  | .error e => .fetchError ("Failed to download file: " ++ e)

/-! ### process_file (lines 139-271) and handler (lines 274-298) -/

/-- get_result_dir (lines 120-127). -/
def get_result_dir (output_dir pdf_name backend parse_method : String) : String :=
  if backend.startsWith "hybrid" then
    output_dir ++ "/" ++ pdf_name ++ "/hybrid_" ++ parse_method
  else if backend.startsWith "vlm" then
    output_dir ++ "/" ++ pdf_name ++ "/vlm"
  else
    output_dir ++ "/" ++ pdf_name ++ "/" ++ parse_method

/-- Oracle for the external calls process_file makes: base64 decoding,
the network fetch, the mineru read_fn, the aio_do_parse engine call, and
the filesystem contents after the engine ran (consulted by
read_result_file). -/
structure World where
  b64decode : Except String Unit
  network : Except String Nat
  read_fn : Except String Unit
  parse : Except String Unit
  files : String → Option String

/-- The observable side effects of one batch job, in order. -/
inductive Eff
  | mkdtemp (d : String)
  | makedirs (p : String)
  | writeFile (p : String)
  | fetch (url : String)
  | pipelineCall
  | readFile (p : String)
  | rmtree (d : String)
  deriving Repr, DecidableEq

/-- The fresh temporary directory name mkdtemp returns for the job. -/
def tempDirName : String := "/tmp/mineru_job"

/-- The extension-resolution step (lines 161-167): from the URL path when
file_url is truthy, else from file_name (default input.pdf); an empty
extension defaults to pdf.  urlparse or Path raise TypeError on a truthy
non-string value, which the enclosing try catches. -/
def resolveExt (j : JobInput) : Except String String :=
  if (dictGet j "file_url").truthy then
    match dictGet j "file_url" with
    | .vstr u =>
        .ok (let e := get_file_extension (urlPath u); if e = "" then "pdf" else e)
    | _ => .error "TypeError"
  else
    match dictGetD j "file_name" (.vstr "input.pdf") with
    | .vstr s =>
        .ok (let e := get_file_extension s; if e = "" then "pdf" else e)
    | _ => .error "TypeError"

/-- The base result dict built at lines 222-228 on the success path. -/
def baseResult (backendV parse_methodV langV : PyVal) : PyDict :=
  [("status", .vstr "success"), ("backend", backendV),
   ("method", parse_methodV), ("lang", langV),
   ("mineru_version", .vstr mineru_version)]

/-- One read_result_file probe followed by the shared fill-in pattern of
lines 230-255: on a truthy read the content and format keys are set, else
status is flipped to error and the error message recorded. -/
def readOne (w : World) (path : String) (base : PyDict) (fmt failMsg : String) :
    PyDict × List Eff :=
  match w.files path with
  | some c =>
      if c ≠ "" then
        (setK (setK base "content" (.vstr c)) "format" (.vstr fmt),
         [.readFile path])
      else
        (setK (setK base "status" (.vstr "error")) "error" (.vstr failMsg),
         [.readFile path])
  | none =>
      (setK (setK base "status" (.vstr "error")) "error" (.vstr failMsg),
       [.readFile path])

/-- Reading the requested artifact (lines 230-255): pick the suffix from
return_format, probe the file, and fill content+format on a truthy read
or flip status to error otherwise.  A return_format outside the three
branches leaves the base dict untouched (unreachable after validation). -/
def readArtifact (w : World) (result_dir : String) (base : PyDict)
    (return_formatV : PyVal) : PyDict × List Eff :=
  if return_formatV = .vstr "markdown" then
    readOne w (result_dir ++ "/input.md") base "markdown"
      "Failed to generate markdown output"
  else if return_formatV = .vstr "json" then
    readOne w (result_dir ++ "/input_middle.json") base "json"
      "Failed to generate JSON output"
  else if return_formatV = .vstr "content_list" then
    readOne w (result_dir ++ "/input_content_list.json") base "content_list"
      "Failed to generate content list output"
  else (base, [])

/-- The steps after the input file is saved (lines 186-258): read_fn,
aio_do_parse, result-directory resolution and artifact read.  get_result_dir
calls backend.startswith, which raises AttributeError on a non-string
backend. -/
def afterSave (w : World) (backendV parse_methodV langV return_formatV : PyVal)
    (output_dir input_path : String) : Except String PyDict × List Eff :=
  match w.read_fn with
  | .error e => (.error e, [.readFile input_path])
  | .ok _ =>
      match w.parse with
      | .error e => (.error e, [.readFile input_path, .pipelineCall])
      | .ok _ =>
          match backendV with
          | .vstr backendS =>
              let result_dir :=
                get_result_dir output_dir "input" backendS (pyStr parse_methodV)
              let r := readArtifact w result_dir
                (baseResult backendV parse_methodV langV) return_formatV
              (.ok r.1, [.readFile input_path, .pipelineCall] ++ r.2)
          | _ => (.error "AttributeError", [.readFile input_path, .pipelineCall])

/-- The try block of process_file (lines 160-258): extension resolution,
support check, file acquisition (base64 decode or download), then
afterSave.  An error value models an exception reaching the except clause
at line 260. -/
def tryBody (j : JobInput) (w : World) (temp_dir output_dir : String) :
    Except String PyDict × List Eff :=
  let backendV := dictGetD j "backend" (.vstr "hybrid-auto-engine")
  let parse_methodV := dictGetD j "method" (.vstr "auto")
  let langV := dictGetD j "lang" (.vstr "ch")
  let return_formatV := dictGetD j "return_format" (.vstr "markdown")
  match resolveExt j with
  | .error e => (.error e, [])
  | .ok ext =>
      if ¬ SUPPORTED_EXTENSIONS.contains ext then
        (.ok [("error", .vstr ("Unsupported file type: " ++ ext
            ++ ". Supported: " ++ pyListRepr SUPPORTED_EXTENSIONS))], [])
      else
        let input_path := temp_dir ++ "/input." ++ ext
        if (dictGet j "file_base64").truthy then
          match w.b64decode with
          | .error e => (.error e, [])
          | .ok _ =>
              let r := afterSave w backendV parse_methodV langV return_formatV
                output_dir input_path
              (r.1, [.writeFile input_path] ++ r.2)
        else
          match w.network with
          | .error e =>
              (.error ("Failed to download file: " ++ e),
               [.fetch (pyStr (dictGet j "file_url"))])
          | .ok _ =>
              let r := afterSave w backendV parse_methodV langV return_formatV
                output_dir input_path
              (r.1,
               [.fetch (pyStr (dictGet j "file_url")), .writeFile input_path]
                 ++ r.2)

/-- process_file (lines 139-271): create the temporary directory before
the try block, run the try body, convert an exception into the error dict
of lines 262-267, and unconditionally remove the temporary directory in
the finally clause (line 271). -/
def process_file (j : JobInput) (w : World) : PyDict × List Eff :=
  let backendV := dictGetD j "backend" (.vstr "hybrid-auto-engine")
  let temp_dir := tempDirName
  let output_dir := temp_dir ++ "/output"
  let r := tryBody j w temp_dir output_dir
  match r.1 with
  | .ok d =>
      (d, [.mkdtemp temp_dir, .makedirs output_dir] ++ r.2 ++ [.rmtree temp_dir])
  | .error e =>
      ([("status", .vstr "error"), ("error", .vstr e), ("backend", backendV),
        ("mineru_version", .vstr mineru_version)],
       [.mkdtemp temp_dir, .makedirs output_dir] ++ r.2 ++ [.rmtree temp_dir])

/-- handler (lines 274-298): validate the job input and return the error
envelope without any further action when validation fails; otherwise run
process_file to completion. -/
def handler (j : JobInput) (w : World) : PyDict × List Eff :=
  let v := validate_input j
  if v.1 = false then
    ([("status", .vstr "error"), ("error", .vstr v.2)], [])
  else process_file j w

/-- The directories a trace creates. -/
def createdDirs : List Eff → List String
  | [] => []
  | .mkdtemp d :: r => d :: createdDirs r
  | _ :: r => createdDirs r

/-- The directories a trace removes. -/
def removedDirs : List Eff → List String
  | [] => []
  | .rmtree d :: r => d :: removedDirs r
  | _ :: r => removedDirs r

/-- The created directories never removed by the same trace. -/
def leakedDirs (effs : List Eff) : List String :=
  (createdDirs effs).filter (fun d => decide (d ∉ removedDirs effs))

/-- The keys the amended C10 guarantees on every validated, supported-
extension job result: status, backend, engine version, and either
content plus format or error. -/
def keysOK (d : PyDict) : Bool :=
  containsKey d "status" && containsKey d "backend" &&
    containsKey d "mineru_version" &&
    (containsKey d "error" || (containsKey d "content" && containsKey d "format"))

end RP

/-! ## Concrete instances used by witnesses and counterexamples -/

/-- The concatenate_markdown_pages oracle that always raises. -/
def concatFail : List App.MdEntry → Except String String := fun _ => .error "boom"

/-- One page whose markdown dict carries a truthy non-string value, making
the manual merge join raise TypeError. -/
def intPage : List App.MdEntry := [.mdict [("markdown_texts", .vint 1)]]

/-- Two pages: one carries non-empty text "A" under the recognized field
name, the other carries a truthy non-string under it. -/
def mixedPages : List App.MdEntry :=
  [.mdict [("markdown_texts", .vstr "A")], .mdict [("markdown_texts", .vint 1)]]

/-- A batch world in which every external call succeeds and the engine
wrote no artifact files. -/
def trivWorld : RP.World := ⟨.ok (), .ok 5, .ok (), .ok (), fun _ => none⟩

/-- A batch world in which the network fetch raises URLError. -/
def netFailWorld : RP.World := ⟨.ok (), .error "timeout", .ok (), .ok (), fun _ => none⟩

/-- A batch world in which the engine wrote the markdown artifact the
default hybrid-auto result directory holds. -/
def mdWorld : RP.World :=
  ⟨.ok (), .ok 5, .ok (), .ok (),
    fun p => if p = "/tmp/mineru_job/output/input/hybrid_auto/input.md"
      then some "MD" else none⟩

/-- A job input that fails validation: invalid backend. -/
def invalidJob : RP.JobInput :=
  [("file_url", .vstr "http://x/a.pdf"), ("backend", .vstr "invalid")]

/-- A validated job input whose URL resolves to the unsupported txt
extension. -/
def txtJob : RP.JobInput := [("file_url", .vstr "http://example.com/doc.txt")]

/-- A validated job input with a supported pdf URL. -/
def pdfJob : RP.JobInput := [("file_url", .vstr "http://example.com/doc.pdf")]

/-- An HTTP world whose pipeline yields no pages and whose concatenation
raises (its details are irrelevant to the claims that use it). -/
def trivAppWorld : App.AppWorld := ⟨.ok ([], false), fun _ => .error "x"⟩

/-! ## Lemmas -/

theorem runCallers_after_init (n h k : Nat) :
    App.runCallers n ⟨some h, k⟩ = (List.replicate n h, ⟨some h, k⟩) := by
  induction n with
  | zero => rfl
  | succ m ih => simp [App.runCallers, App.get_pipeline, ih, List.replicate_succ]

theorem chunk_size_eq : App.CHUNK_SIZE = 1048576 := rfl

theorem chunkSizes_sum (n : Nat) : (App.chunkSizes n).sum = n := by
  induction n using Nat.strong_induction_on with
  | _ n ih =>
    by_cases h1 : n = 0
    · rw [App.chunkSizes, if_pos h1]; simp [h1]
    · by_cases h2 : n ≤ App.CHUNK_SIZE
      · rw [App.chunkSizes, if_neg h1, if_pos h2]; simp
      · rw [App.chunkSizes, if_neg h1, if_neg h2, List.sum_cons,
          ih (n - App.CHUNK_SIZE) (by rw [chunk_size_eq] at h2 ⊢; omega)]
        exact Nat.add_sub_cancel' (Nat.le_of_lt (Nat.lt_of_not_le h2))

theorem chunkSizes_le (n : Nat) :
    ∀ c ∈ App.chunkSizes n, c ≤ App.CHUNK_SIZE := by
  induction n using Nat.strong_induction_on with
  | _ n ih =>
    rw [App.chunkSizes]
    split
    · simp
    · split
      · rename_i h1 h2
        simp [chunk_size_eq] at h2 ⊢
        omega
      · rename_i h1 h2
        intro c hc2
        rw [chunk_size_eq] at h2 ⊢
        simp at hc2
        rcases hc2 with hc2 | hc2
        · rw [hc2, chunk_size_eq]
        · have := ih (n - App.CHUNK_SIZE) (by rw [chunk_size_eq]; omega) c hc2
          rw [chunk_size_eq] at this
          exact this

theorem writeChunks_over (maxB : Nat) :
    ∀ (l : List Nat) (t : Nat), t ≤ maxB → (∀ c ∈ l, c ≤ App.CHUNK_SIZE) →
      maxB < t + l.sum →
      (App.writeChunks maxB l t t).is413 = true ∧
      (App.writeChunks maxB l t t).writtenBytes ≤ maxB ∧
      (App.writeChunks maxB l t t).readBytes ≤ maxB + App.CHUNK_SIZE := by
  intro l
  induction l with
  | nil => intro t ht _ hs; simp at hs; omega
  | cons c rest ih =>
    intro t ht hle hs
    by_cases hover : t + c > maxB
    · have hcle : c ≤ App.CHUNK_SIZE := hle c (by simp)
      rw [chunk_size_eq] at hcle ⊢
      simp [App.writeChunks, hover, App.WriteResult.is413,
        App.WriteResult.writtenBytes, App.WriteResult.readBytes]
      omega
    · have heq : App.writeChunks maxB (c :: rest) t t
          = App.writeChunks maxB rest (t + c) (t + c) := by
        simp [App.writeChunks, hover]
      rw [heq]
      exact ih (t + c) (by omega) (fun d hd => hle d (by simp [hd]))
        (by simp at hs; omega)

theorem length_le_foldl_append (sep : String) (l : List String) :
    ∀ acc : String, acc.length ≤ (l.foldl (fun r x => r ++ sep ++ x) acc).length := by
  induction l with
  | nil => intro acc; exact Nat.le_refl _
  | cons x xs ih =>
    intro acc
    calc acc.length ≤ (acc ++ sep ++ x).length := by
          simp [String.length_append]; omega
      _ ≤ _ := ih (acc ++ sep ++ x)

theorem pyJoin_ne_empty (sep a : String) (l : List String) (ha : a ≠ "") :
    pyJoin sep (a :: l) ≠ "" := by
  intro hcontra
  have h1 : a.length ≤ (pyJoin sep (a :: l)).length :=
    length_le_foldl_append sep l a
  rw [hcontra] at h1
  simp at h1
  apply ha
  cases a with
  | mk cs =>
    have hc : cs = [] := by
      have h2 : cs.length = 0 := by simpa [String.length] using h1
      simpa using h2
    rw [hc]

/-! ## Claim theorems -/

/-- C1: get_pipeline contains no await point, so under the single-threaded
asyncio event loop each call runs atomically and any schedule of N
concurrent first-time callers is a sequence of N calls on the shared
global.  For every N ≥ 1 such callers, exactly one construction of the
pipeline handle occurs and every caller observes that same handle. -/
theorem pipeline_single_construction (N : Nat) (h : 1 ≤ N) :
    (App.runCallers N App.initState).2.constructions = 1 ∧
    (App.runCallers N App.initState).1 = List.replicate N 0 := by
  obtain ⟨m, rfl⟩ : ∃ m, N = m + 1 := ⟨N - 1, by omega⟩
  simp [App.runCallers, App.initState, App.get_pipeline, runCallers_after_init,
    List.replicate_succ]

/-- Witness for C1 at N = 3. -/
theorem pipeline_single_construction_witness :
    1 ≤ 3 ∧
    ((App.runCallers 3 App.initState).2.constructions = 1 ∧
      (App.runCallers 3 App.initState).1 = List.replicate 3 0) :=
  ⟨by decide, pipeline_single_construction 3 (by decide)⟩

/-- C2: for every uploaded stream larger than the byte bound,
_write_upload_file (reading in fixed 1 MiB chunks with a running total)
raises HTTPException 413 as soon as the running total exceeds the bound;
the bytes persisted to the destination never exceed the bound, and at most
bound + one chunk of the stream is ever read (so the whole stream is never
buffered first). -/
theorem upload_rejects_oversized (streamSize maxB : Nat) (h : maxB < streamSize) :
    (App.write_upload_file streamSize maxB).is413 = true ∧
    (App.write_upload_file streamSize maxB).writtenBytes ≤ maxB ∧
    (App.write_upload_file streamSize maxB).readBytes ≤ maxB + App.CHUNK_SIZE := by
  have hmain := writeChunks_over maxB (App.chunkSizes streamSize) 0 (Nat.zero_le _)
    (chunkSizes_le streamSize) (by rw [Nat.zero_add, chunkSizes_sum]; omega)
  simpa [App.write_upload_file] using hmain

/-- Witness for C2: a 5-byte stream against a 3-byte bound. -/
theorem upload_rejects_oversized_witness :
    3 < 5 ∧
    ((App.write_upload_file 5 3).is413 = true ∧
      (App.write_upload_file 5 3).writtenBytes ≤ 3 ∧
      (App.write_upload_file 5 3).readBytes ≤ 3 + App.CHUNK_SIZE) :=
  ⟨by decide, upload_rejects_oversized 5 3 (by decide)⟩

/-- C3 counterexample: download_file performs no size accounting at all —
a successful fetch of a 100 MiB response is persisted whole and returns
success, with no PayloadTooLarge failure, even though it exceeds the
30 MiB bound the upload path uses. -/
theorem download_no_size_limit_cex :
    RP.download_file (.ok (100 * 1024 * 1024)) = .ok (100 * 1024 * 1024) ∧
    (30 : Nat) * 1024 * 1024 < 100 * 1024 * 1024 :=
  ⟨rfl, by norm_num⟩

/-- C3 amended: the batch download enforces no maximum-byte limit — a
successful fetch persists the entire response body regardless of its
size — and a network failure (URLError) fails with a RuntimeError wrapping
the message (the FetchError of the spec). -/
theorem download_file_behavior (n : Nat) (e : String) :
    RP.download_file (.ok n) = .ok n ∧
    RP.download_file (.error e) =
      .fetchError ("Failed to download file: " ++ e) :=
  ⟨rfl, rfl⟩

/-- C4 counterexample: iteration succeeds with one page of truthy
markdown, the primary concatenation raises, and the manual merge raises
(its join meets a non-string) — the code then returns ("", 0), not
("", 1): the accumulated page count is discarded, contradicting the
claim that pageCount is preserved. -/
theorem extract_drops_pagecount_cex :
    App.extract_markdown concatFail intPage false = ("", 0) ∧
    intPage.length = 1 ∧
    intPage.filter App.MdEntry.truthy ≠ [] ∧
    concatFail (intPage.filter App.MdEntry.truthy) = .error "boom" ∧
    App.manualMerge (intPage.filter App.MdEntry.truthy) = .error () :=
  ⟨rfl, rfl, by decide, rfl, rfl⟩

/-- C4 amended: when per-page iteration succeeds with at least one truthy
markdown entry and both the primary page-concatenation routine and the
secondary manual merge raise, the normalizer returns the empty markdown
string together with a page count of zero (the accumulated count is
discarded, line 117). -/
theorem extract_both_merges_fail (concat : List App.MdEntry → Except String String)
    (pages : List App.MdEntry) (msg : String)
    (h1 : pages.filter App.MdEntry.truthy ≠ [])
    (h2 : concat (pages.filter App.MdEntry.truthy) = .error msg)
    (h3 : App.manualMerge (pages.filter App.MdEntry.truthy) = .error ()) :
    App.extract_markdown concat pages false = ("", 0) := by
  simp [App.extract_markdown, h1, h2, h3]

/-- Witness for C4 amended at the concrete failing page. -/
theorem extract_both_merges_fail_witness :
    (intPage.filter App.MdEntry.truthy ≠ [] ∧
      concatFail (intPage.filter App.MdEntry.truthy) = .error "boom" ∧
      App.manualMerge (intPage.filter App.MdEntry.truthy) = .error ()) ∧
    App.extract_markdown concatFail intPage false = ("", 0) :=
  ⟨⟨by decide, rfl, rfl⟩,
    extract_both_merges_fail concatFail intPage "boom" (by decide) rfl rfl⟩

/-- C5 counterexample: the first page carries the non-empty text "A" under
the recognized field name markdown_texts and the primary merge raises, yet
the secondary merge also fails (the second page carries a truthy
non-string, so the join raises TypeError) and the result is the empty
markdown string — refuting the claim that the secondary merge always
produces a non-empty result in this situation. -/
theorem secondary_merge_cex :
    App.extract_markdown concatFail mixedPages false = ("", 0) ∧
    App.probeText [("markdown_texts", PyVal.vstr "A")] = .vstr "A" ∧
    ("A" : String) ≠ "" ∧
    concatFail (mixedPages.filter App.MdEntry.truthy) = .error "boom" :=
  ⟨rfl, rfl, by decide, rfl⟩

/-- C5 amended: when the primary merge raises, at least one page
contributes a non-empty fragment, and every truthy fragment the pages
contribute under the recognized field names is a string (so the join does
not raise), the secondary merge produces exactly the non-empty fragments
joined with a blank-line separator, which is non-empty, together with the
page count. -/
theorem secondary_merge_joins (concat : List App.MdEntry → Except String String)
    (pages : List App.MdEntry) (msg : String)
    (hconcat : concat (pages.filter App.MdEntry.truthy) = .error msg)
    (hall : ((App.textParts (pages.filter App.MdEntry.truthy)).filter
        PyVal.truthy).all PyVal.isStr = true)
    (hne : (App.textParts (pages.filter App.MdEntry.truthy)).filter
        PyVal.truthy ≠ []) :
    App.extract_markdown concat pages false =
      (pyJoin "\n\n" (((App.textParts (pages.filter App.MdEntry.truthy)).filter
          PyVal.truthy).map PyVal.asStr), pages.length) ∧
    pyJoin "\n\n" (((App.textParts (pages.filter App.MdEntry.truthy)).filter
        PyVal.truthy).map PyVal.asStr) ≠ "" := by
  have hml : pages.filter App.MdEntry.truthy ≠ [] := by
    intro hcontra
    rw [hcontra] at hne
    exact hne rfl
  have hmerge : App.manualMerge (pages.filter App.MdEntry.truthy) =
      .ok (pyJoin "\n\n" (((App.textParts (pages.filter App.MdEntry.truthy)).filter
        PyVal.truthy).map PyVal.asStr)) := by
    simp [App.manualMerge, App.joinParts, hall]
  constructor
  · simp [App.extract_markdown, hml, hconcat, hmerge]
  · obtain ⟨p, rest, hpr⟩ : ∃ p rest,
        (App.textParts (pages.filter App.MdEntry.truthy)).filter PyVal.truthy
          = p :: rest := by
      cases hk : (App.textParts (pages.filter App.MdEntry.truthy)).filter
          PyVal.truthy with
      | nil => exact absurd hk hne
      | cons p rest => exact ⟨p, rest, rfl⟩
    rw [hpr]
    have hptruthy : p.truthy = true := by
      have := List.mem_filter.mp (hpr ▸ List.mem_cons_self p rest)
      exact this.2
    have hpstr : p.isStr = true := by
      have := List.all_eq_true.mp (hpr ▸ hall) p (List.mem_cons_self p rest)
      exact this
    obtain ⟨s, rfl⟩ : ∃ s, p = PyVal.vstr s := by
      cases p with
      | vstr s => exact ⟨s, rfl⟩
      | vint n => simp [PyVal.isStr] at hpstr
      | vnone => simp [PyVal.isStr] at hpstr
    have hs : s ≠ "" := by
      simpa [PyVal.truthy] using hptruthy
    simpa [PyVal.asStr] using pyJoin_ne_empty "\n\n" s (rest.map PyVal.asStr) hs

/-- Witness for C5 amended: two string pages "A" and "B" yield "A\n\nB". -/
theorem secondary_merge_joins_witness :
    (concatFail ([App.MdEntry.mstr "A", App.MdEntry.mstr "B"].filter
        App.MdEntry.truthy) = .error "boom" ∧
      ((App.textParts ([App.MdEntry.mstr "A", App.MdEntry.mstr "B"].filter
          App.MdEntry.truthy)).filter PyVal.truthy).all PyVal.isStr = true ∧
      (App.textParts ([App.MdEntry.mstr "A", App.MdEntry.mstr "B"].filter
          App.MdEntry.truthy)).filter PyVal.truthy ≠ []) ∧
    App.extract_markdown concatFail [App.MdEntry.mstr "A", App.MdEntry.mstr "B"]
        false =
      (pyJoin "\n\n" (((App.textParts
          ([App.MdEntry.mstr "A", App.MdEntry.mstr "B"].filter
            App.MdEntry.truthy)).filter PyVal.truthy).map PyVal.asStr),
        [App.MdEntry.mstr "A", App.MdEntry.mstr "B"].length) ∧
    pyJoin "\n\n" (((App.textParts
        ([App.MdEntry.mstr "A", App.MdEntry.mstr "B"].filter
          App.MdEntry.truthy)).filter PyVal.truthy).map PyVal.asStr) ≠ "" :=
  ⟨⟨rfl, by decide, by decide⟩,
    (secondary_merge_joins concatFail [App.MdEntry.mstr "A", App.MdEntry.mstr "B"]
      "boom" rfl (by decide) (by decide)).1,
    (secondary_merge_joins concatFail [App.MdEntry.mstr "A", App.MdEntry.mstr "B"]
      "boom" rfl (by decide) (by decide)).2⟩

/-- C6: for every job input that fails parameter validation, the handler
returns the error envelope with the validation message and performs no
side effect at all — no temporary directory, no filesystem write, no
network fetch, no pipeline call (the effect trace is empty). -/
theorem handler_invalid_input (j : RP.JobInput) (w : RP.World)
    (h : (RP.validate_input j).1 = false) :
    RP.handler j w =
      ([("status", .vstr "error"), ("error", .vstr (RP.validate_input j).2)], []) := by
  simp [RP.handler, h]

/-- Witness for C6 at the invalid-backend job. -/
theorem handler_invalid_input_witness :
    (RP.validate_input invalidJob).1 = false ∧
    RP.handler invalidJob trivWorld =
      ([("status", .vstr "error"),
        ("error", .vstr (RP.validate_input invalidJob).2)], []) :=
  ⟨rfl, handler_invalid_input invalidJob trivWorld rfl⟩

theorem createdDirs_append (a b : List RP.Eff) :
    RP.createdDirs (a ++ b) = RP.createdDirs a ++ RP.createdDirs b := by
  induction a with
  | nil => rfl
  | cons e r ih => cases e <;> simp [RP.createdDirs, ih]

theorem removedDirs_append (a b : List RP.Eff) :
    RP.removedDirs (a ++ b) = RP.removedDirs a ++ RP.removedDirs b := by
  induction a with
  | nil => rfl
  | cons e r ih => cases e <;> simp [RP.removedDirs, ih]

theorem dirEffs_readOne (w : RP.World) (path : String) (b : RP.PyDict)
    (fmt failMsg : String) :
    RP.createdDirs (RP.readOne w path b fmt failMsg).2 = [] := by
  unfold RP.readOne
  cases w.files path <;> simp [RP.createdDirs]
  split <;> simp [RP.createdDirs]

theorem dirEffs_readArtifact (w : RP.World) (rd : String) (b : RP.PyDict)
    (rf : PyVal) :
    RP.createdDirs (RP.readArtifact w rd b rf).2 = [] := by
  unfold RP.readArtifact
  repeat' split
  all_goals simp [RP.createdDirs, dirEffs_readOne]

theorem dirEffs_afterSave (w : RP.World) (bV mV lV rfV : PyVal)
    (od ip : String) :
    RP.createdDirs (RP.afterSave w bV mV lV rfV od ip).2 = [] := by
  unfold RP.afterSave
  repeat' split
  all_goals simp [RP.createdDirs, createdDirs_append, dirEffs_readArtifact]

theorem dirEffs_tryBody (j : RP.JobInput) (w : RP.World) (t o : String) :
    RP.createdDirs (RP.tryBody j w t o).2 = [] := by
  unfold RP.tryBody
  repeat' split
  all_goals simp [RP.createdDirs, createdDirs_append, dirEffs_afterSave]

/-- C7: for every batch job and every behavior of the external
collaborators, the effect trace of process_file removes every temporary
directory it creates — the temp directory is deleted on every exit path
(success, returned error dict, or an exception converted by the except
clause), by the finally clause. -/
theorem batch_tempdir_cleanup (j : RP.JobInput) (w : RP.World) :
    RP.leakedDirs (RP.process_file j w).2 = [] := by
  have hc := dirEffs_tryBody j w RP.tempDirName (RP.tempDirName ++ "/output")
  rcases htb : RP.tryBody j w RP.tempDirName (RP.tempDirName ++ "/output")
    with ⟨r1, r2⟩
  rw [htb] at hc
  simp only at hc
  unfold RP.process_file
  simp only [htb]
  cases r1 <;>
    simp [RP.leakedDirs, RP.createdDirs, RP.removedDirs, createdDirs_append,
      removedDirs_append, hc, List.mem_append]

/-- C8: for every HTTP upload whose (nonempty) filename has an extension
outside the allow-list, parse_file rejects with HTTPException 400
(unsupported format) and performs no side effect at all: no temporary
directory, no byte persisted, no pipeline construction or call. -/
theorem upload_unsupported_extension (filename : String) (n maxMB : Nat)
    (w : App.AppWorld) (h1 : filename ≠ "")
    (h2 : App.splitextExtLower filename ∉ App.allowed_extensions) :
    App.parse_file filename n maxMB w =
      (.httpErr 400 ("Unsupported file format. Supported: "
          ++ pyJoin ", " App.allowed_extensions), []) := by
  simp [App.parse_file, h1, h2]

/-- Witness for C8 at a txt upload. -/
theorem upload_unsupported_extension_witness :
    (("doc.txt" : String) ≠ "" ∧
      App.splitextExtLower "doc.txt" ∉ App.allowed_extensions) ∧
    App.parse_file "doc.txt" 10 30 trivAppWorld =
      (.httpErr 400 ("Unsupported file format. Supported: "
          ++ pyJoin ", " App.allowed_extensions), []) :=
  ⟨⟨by decide, by decide⟩,
    upload_unsupported_extension "doc.txt" 10 30 trivAppWorld (by decide)
      (by decide)⟩

/-- C9: for every upload of an allow-listed filename whose stream is
empty (zero bytes), parse_file fails with HTTPException 400 (empty input)
and the pipeline is never constructed nor invoked. -/
theorem upload_empty_rejected (filename : String) (maxMB : Nat)
    (w : App.AppWorld)
    (h2 : App.splitextExtLower filename ∈ App.allowed_extensions) :
    App.parse_file filename 0 maxMB w =
      (.httpErr 400 "File is empty", [.tempdir, .fileWrite]) ∧
    App.AppEff.pipelineInit ∉ (App.parse_file filename 0 maxMB w).2 ∧
    App.AppEff.predictCall ∉ (App.parse_file filename 0 maxMB w).2 := by
  have h1 : filename ≠ "" := by
    intro hcontra
    rw [hcontra] at h2
    exact absurd h2 (by decide)
  have hw : App.write_upload_file 0 (maxMB * 1024 * 1024) = .ok 0 0 := by
    simp [App.write_upload_file, App.chunkSizes, App.writeChunks]
  have heq : App.parse_file filename 0 maxMB w =
      (.httpErr 400 "File is empty", [.tempdir, .fileWrite]) := by
    simp [App.parse_file, h1, h2, hw]
  refine ⟨heq, ?_, ?_⟩ <;> rw [heq] <;> decide

/-- Witness for C9 at an empty pdf upload. -/
theorem upload_empty_rejected_witness :
    App.splitextExtLower "a.pdf" ∈ App.allowed_extensions ∧
    (App.parse_file "a.pdf" 0 30 trivAppWorld =
      (.httpErr 400 "File is empty", [.tempdir, .fileWrite]) ∧
    App.AppEff.pipelineInit ∉ (App.parse_file "a.pdf" 0 30 trivAppWorld).2 ∧
    App.AppEff.predictCall ∉ (App.parse_file "a.pdf" 0 30 trivAppWorld).2) :=
  ⟨by decide, upload_empty_rejected "a.pdf" 30 trivAppWorld (by decide)⟩

theorem validate_true_parts (j : RP.JobInput)
    (h : (RP.validate_input j).1 = true) :
    RP.pyMemStr (dictGetD j "backend" (.vstr "hybrid-auto-engine"))
      RP.valid_backends = true ∧
    RP.pyMemStr (dictGetD j "return_format" (.vstr "markdown"))
      RP.valid_formats = true := by
  simp only [RP.validate_input] at h
  split at h
  · simp at h
  · split at h
    · simp at h
    · split at h
      · simp at h
      · split at h
        · simp at h
        · rename_i h1 h2 h3 h4
          exact ⟨by simpa using h2, by simpa using h4⟩

theorem keysOK_exceptDict (e : String) (bV : PyVal) :
    RP.keysOK [("status", .vstr "error"), ("error", .vstr e), ("backend", bV),
      ("mineru_version", .vstr RP.mineru_version)] = true := rfl

theorem keysOK_readOne (w : RP.World) (path : String) (bV mV lV : PyVal)
    (fmt failMsg : String) :
    RP.keysOK (RP.readOne w path (RP.baseResult bV mV lV) fmt failMsg).1
      = true := by
  cases hw : w.files path with
  | none => simp only [RP.readOne, hw]; rfl
  | some c => simp only [RP.readOne, hw]; split <;> rfl

theorem keysOK_afterSave (w : RP.World) (bV mV lV rfV : PyVal) (od ip : String)
    (hf : RP.pyMemStr rfV RP.valid_formats = true) (d : RP.PyDict)
    (hd : (RP.afterSave w bV mV lV rfV od ip).1 = .ok d) :
    RP.keysOK d = true := by
  unfold RP.afterSave at hd
  split at hd
  · simp at hd
  · split at hd
    · simp at hd
    · split at hd
      · simp at hd
        cases rfV with
        | vstr s =>
            simp [RP.pyMemStr, RP.valid_formats] at hf
            rcases hf with rfl | rfl | rfl
            · rw [← hd]
              unfold RP.readArtifact
              rw [if_pos rfl]
              exact keysOK_readOne w _ _ mV lV _ _
            · rw [← hd]
              unfold RP.readArtifact
              rw [if_neg (by decide), if_pos rfl]
              exact keysOK_readOne w _ _ mV lV _ _
            · rw [← hd]
              unfold RP.readArtifact
              rw [if_neg (by decide), if_neg (by decide), if_pos rfl]
              exact keysOK_readOne w _ _ mV lV _ _
        | vint n => simp [RP.pyMemStr] at hf
        | vnone => simp [RP.pyMemStr] at hf
      · simp at hd

/-- C10 counterexample: the job with a validated input whose URL ends in
the unsupported txt extension yields a result mapping whose only key is
error — no status, backend, method, lang or version key — and the job
whose download fails yields a mapping with no method and no lang key.
Both refute the claim that every validated job result includes status,
backend, method, lang and the engine version. -/
theorem batch_result_keys_cex :
    (RP.validate_input txtJob).1 = true ∧
    (RP.handler txtJob trivWorld).1.map Prod.fst = ["error"] ∧
    containsKey (RP.handler txtJob trivWorld).1 "status" = false ∧
    (RP.validate_input pdfJob).1 = true ∧
    containsKey (RP.handler pdfJob netFailWorld).1 "method" = false ∧
    containsKey (RP.handler pdfJob netFailWorld).1 "lang" = false :=
  ⟨rfl, rfl, rfl, rfl, rfl, rfl⟩

/-- C10 amended: for every job input that passes parameter validation,
the returned mapping includes status, backend and the engine version
together with either content plus format (successful artifact read) or
error — except when the resolved file extension is unsupported, in which
case the mapping contains only the error key.  (method and lang are
additionally present on non-exception paths but are dropped by the
except-clause dict, so they are not part of the guarantee.) -/
theorem batch_result_keys (j : RP.JobInput) (w : RP.World)
    (hv : (RP.validate_input j).1 = true) :
    match RP.resolveExt j with
    | .ok ext =>
        if ext ∈ RP.SUPPORTED_EXTENSIONS
        then RP.keysOK (RP.handler j w).1 = true
        else (RP.handler j w).1.map Prod.fst = ["error"]
    | .error _ => RP.keysOK (RP.handler j w).1 = true := by
  obtain ⟨hb, hf⟩ := validate_true_parts j hv
  have hh : RP.handler j w = RP.process_file j w := by
    simp [RP.handler, hv]
  cases hre : RP.resolveExt j with
  | error e =>
      have htb : RP.tryBody j w RP.tempDirName (RP.tempDirName ++ "/output")
          = (.error e, []) := by
        unfold RP.tryBody
        simp [hre]
      rw [hh]
      simp only [RP.process_file, htb]
      exact keysOK_exceptDict e _
  | ok ext =>
      by_cases hs : ext ∈ RP.SUPPORTED_EXTENSIONS
      · simp only [if_pos hs]
        rw [hh]
        by_cases hb64 : (dictGet j "file_base64").truthy
        · cases hbd : w.b64decode with
          | error e =>
              have htb : RP.tryBody j w RP.tempDirName
                  (RP.tempDirName ++ "/output") = (.error e, []) := by
                unfold RP.tryBody
                simp [hre, hs, hb64, hbd]
              simp only [RP.process_file, htb]
              exact keysOK_exceptDict e _
          | ok u =>
              rcases has : RP.afterSave w
                  (dictGetD j "backend" (.vstr "hybrid-auto-engine"))
                  (dictGetD j "method" (.vstr "auto"))
                  (dictGetD j "lang" (.vstr "ch"))
                  (dictGetD j "return_format" (.vstr "markdown"))
                  (RP.tempDirName ++ "/output")
                  (RP.tempDirName ++ "/input." ++ ext) with ⟨s1, s2⟩
              have htb : RP.tryBody j w RP.tempDirName
                  (RP.tempDirName ++ "/output")
                  = (s1, [.writeFile (RP.tempDirName ++ "/input." ++ ext)]
                      ++ s2) := by
                unfold RP.tryBody
                simp [hre, hs, hb64, hbd, has]
              cases s1 with
              | ok d =>
                  simp only [RP.process_file, htb]
                  exact keysOK_afterSave w _ _ _ _
                    (RP.tempDirName ++ "/output")
                    (RP.tempDirName ++ "/input." ++ ext) hf d
                    (by rw [has])
              | error e =>
                  simp only [RP.process_file, htb]
                  exact keysOK_exceptDict e _
        · cases hnw : w.network with
          | error e =>
              have htb : RP.tryBody j w RP.tempDirName
                  (RP.tempDirName ++ "/output")
                  = (.error ("Failed to download file: " ++ e),
                     [.fetch (pyStr (dictGet j "file_url"))]) := by
                unfold RP.tryBody
                simp [hre, hs, hb64, hnw]
              simp only [RP.process_file, htb]
              exact keysOK_exceptDict _ _
          | ok u =>
              rcases has : RP.afterSave w
                  (dictGetD j "backend" (.vstr "hybrid-auto-engine"))
                  (dictGetD j "method" (.vstr "auto"))
                  (dictGetD j "lang" (.vstr "ch"))
                  (dictGetD j "return_format" (.vstr "markdown"))
                  (RP.tempDirName ++ "/output")
                  (RP.tempDirName ++ "/input." ++ ext) with ⟨s1, s2⟩
              have htb : RP.tryBody j w RP.tempDirName
                  (RP.tempDirName ++ "/output")
                  = (s1, [.fetch (pyStr (dictGet j "file_url")),
                      .writeFile (RP.tempDirName ++ "/input." ++ ext)]
                      ++ s2) := by
                unfold RP.tryBody
                simp [hre, hs, hb64, hnw, has]
              cases s1 with
              | ok d =>
                  simp only [RP.process_file, htb]
                  exact keysOK_afterSave w _ _ _ _
                    (RP.tempDirName ++ "/output")
                    (RP.tempDirName ++ "/input." ++ ext) hf d
                    (by rw [has])
              | error e =>
                  simp only [RP.process_file, htb]
                  exact keysOK_exceptDict e _
      · have htb : RP.tryBody j w RP.tempDirName (RP.tempDirName ++ "/output")
            = (.ok [("error", .vstr ("Unsupported file type: " ++ ext
                ++ ". Supported: " ++ pyListRepr RP.SUPPORTED_EXTENSIONS))],
               []) := by
          unfold RP.tryBody
          simp [hre, hs]
        simp only [if_neg hs]
        rw [hh]
        simp only [RP.process_file, htb]
        rfl

/-- Witness for C10 amended: a validated pdf job against an engine that
wrote the markdown artifact. -/
theorem batch_result_keys_witness :
    (RP.validate_input pdfJob).1 = true ∧
    (match RP.resolveExt pdfJob with
      | .ok ext =>
          if ext ∈ RP.SUPPORTED_EXTENSIONS
          then RP.keysOK (RP.handler pdfJob mdWorld).1 = true
          else (RP.handler pdfJob mdWorld).1.map Prod.fst = ["error"]
      | .error _ => RP.keysOK (RP.handler pdfJob mdWorld).1 = true) :=
  ⟨rfl, batch_result_keys pdfJob mdWorld rfl⟩
